import Mathlib

/-!
Shallow embedding of the intraday-insight trading core, translated from the
TypeScript sources under `src/supabase/functions/` and `src/unnamed/`.

Conventions used throughout:
* JavaScript numbers are modelled as `ℚ`.  Where the source divides, we use
  rational division; `q / 0 = 0` in Lean while JS yields `Infinity`/`NaN` —
  at each place where this matters an explicit guard mirroring the JS
  behaviour is added and noted in a comment.
* `Math.round` rounds half-up (towards `+∞`), i.e. `⌊x + 1/2⌋`.
* SQL `NULL` / absent JS values become `Option`.
* JS truthiness tests on numbers (`if (x)`) are modelled as
  `x ≠ 0` on the wrapped value (with `none` falsy).
* Wall-clock reads (`new Date()`, `Date.now()`) are lifted to explicit
  parameters (`istHour`, `minutesOpen`, `now`).
-/

/-- JS `Math.round`: round half towards positive infinity. -/
def jsRound (q : ℚ) : ℤ := ⌊q + 1/2⌋

/-- JS `Math.round(x * 100) / 100` (2-decimal rounding). -/
def round2 (q : ℚ) : ℚ := (jsRound (q * 100) : ℚ) / 100

/-- JS `Math.round(x * 10000) / 10000` (4-decimal rounding). -/
def round4 (q : ℚ) : ℚ := (jsRound (q * 10000) : ℚ) / 10000

/-- JS `Math.round(x * 1000000) / 1000000` (6-decimal rounding). -/
def round6 (q : ℚ) : ℚ := (jsRound (q * 1000000) : ℚ) / 1000000

/-- JS truthiness of a nullable number: `null`, `undefined` and `0` are falsy. -/
def truthyQ : Option ℚ → Prop
  | some v => v ≠ 0
  | none => False

instance : DecidablePred truthyQ := fun o => by
  cases o with
  | none => exact .isFalse (fun h => h)
  | some v => exact inferInstanceAs (Decidable (v ≠ 0))

/-! ## trading-intelligence/index.ts -/

/-- `TradingRules` row (`trading-intelligence/index.ts`, interface at lines 11-19).
All columns are `numeric` in the schema, hence `ℚ`. -/
structure TradingRules where
  market_multiplier : ℚ
  risk_multiplier : ℚ
  time_multiplier : ℚ
  min_score_threshold : ℚ
  max_daily_trades : ℚ
  max_daily_loss : ℚ
  consecutive_loss_limit : ℚ

/-- `TradingState` row (`trading-intelligence/index.ts`, lines 21-27). -/
structure TradingState where
  trades_today : ℚ
  daily_pnl : ℚ
  consecutive_losses : ℚ
  auto_mode_active : Bool
  stop_reason : Option String

/-- `SignalScore` (`trading-intelligence/index.ts`, lines 29-34). -/
structure SignalScore where
  rawScore : ℚ
  finalScore : ℚ
  isTradable : Bool
  rejectionReason : Option String
deriving DecidableEq

/-- The `indicator_cache` row consumed by `calculateRawScore`
(`trading-intelligence/index.ts`, line 37: `indicators: any`).
`raw_data_close` models `indicators.raw_data[0]?.close` together with the
`raw_data?.length > 0` guard: it is `some c` exactly when `raw_data` is a
non-empty array whose first candle has close `c`. -/
structure IndicatorSnapshot where
  trend_strength : Option ℚ
  rsi : Option ℚ
  vwap : Option ℚ
  raw_data_close : Option ℚ
  relative_volume : Option ℚ
  pattern_detected : Option String
  macd_histogram : Option ℚ

/-- Trend-strength block of `calculateRawScore` (lines 40-44): 0-25 points. -/
def trendContribution (ind : IndicatorSnapshot) : ℚ :=
  match ind.trend_strength with
  | some ts => min 25 (|ts| / 4)
  | none => 0

/-- RSI block of `calculateRawScore` (lines 46-57): 0-15 points. -/
def rsiContribution (ind : IndicatorSnapshot) : ℚ :=
  match ind.rsi with
  | some rsi =>
    if (30 ≤ rsi ∧ rsi ≤ 40) ∨ (60 ≤ rsi ∧ rsi ≤ 70) then 15
    else if (25 ≤ rsi ∧ rsi ≤ 45) ∨ (55 ≤ rsi ∧ rsi ≤ 75) then 10
    else if rsi < 20 ∨ 80 < rsi then 5
    else 0
  | none => 0

/-- VWAP-alignment block of `calculateRawScore` (lines 59-70): 0-15 points.
The `vwap ≠ 0` guard mirrors JS: with `vwap = 0` the source computes
`±Infinity` for `vwapDiff` and neither `< 0.5` nor `< 1` holds, so no points
are added.  `currentPrice ≠ 0` is the JS truthiness test `if (currentPrice)`. -/
def vwapContribution (ind : IndicatorSnapshot) : ℚ :=
  match ind.vwap, ind.raw_data_close with
  | some vwap, some currentPrice =>
    if currentPrice ≠ 0 ∧ vwap ≠ 0 then
      let vwapDiff := ((currentPrice - vwap) / vwap) * 100
      if |vwapDiff| < 0.5 then 15
      else if |vwapDiff| < 1 then 10
      else 0
    else 0
  | _, _ => 0

/-- Volume block of `calculateRawScore` (lines 72-81): 0-15 points. -/
def volumeContribution (ind : IndicatorSnapshot) : ℚ :=
  match ind.relative_volume with
  | some rv =>
    if rv > 1.5 then 15
    else if rv > 1.2 then 10
    else if rv > 0.8 then 5
    else 0
  | none => 0

/-- Pattern block of `calculateRawScore` (lines 83-92): 0-10 points.
(JS truthiness on the pattern string is immaterial: the empty string matches
none of the listed patterns.) -/
def patternContribution (ind : IndicatorSnapshot) : ℚ :=
  match ind.pattern_detected with
  | some p =>
    if p ∈ ["HAMMER", "BULLISH_ENGULFING", "INVERTED_HAMMER"] ∨
       p ∈ ["SHOOTING_STAR", "BEARISH_ENGULFING"] then 10
    else if p = "DOJI" then 3
    else 0
  | none => 0

/-- MACD block of `calculateRawScore` (lines 94-99): 0-10 points. -/
def macdContribution (ind : IndicatorSnapshot) : ℚ :=
  match ind.macd_histogram with
  | some h => if |h| > 0.001 then (if h > 0 then 10 else 8) else 0
  | none => 0

/-- `calculateRawScore` (`trading-intelligence/index.ts`, lines 37-102):
base 50, six additive blocks, then `Math.min(100, Math.round(score))`. -/
def calculateRawScore (ind : IndicatorSnapshot) : ℤ :=
  let score : ℚ := 50 + trendContribution ind + rsiContribution ind +
    vwapContribution ind + volumeContribution ind + patternContribution ind +
    macdContribution ind
  min 100 (jsRound score)

/-- `getTimeMultiplier` (`trading-intelligence/index.ts`, lines 105-122).
`istHour` stands for the source's `(now.getUTCHours() + 5.5) % 24`. -/
def getTimeMultiplier (istHour : ℚ) : ℚ :=
  if istHour < 9.25 ∨ 15.5 ≤ istHour then 0
  else if 9.25 ≤ istHour ∧ istHour < 10 then 0.7
  else if 10 ≤ istHour ∧ istHour < 11.5 then 1.0
  else if 11.5 ≤ istHour ∧ istHour < 14 then 0.8
  else if 14 ≤ istHour ∧ istHour < 15 then 1.0
  else 0.6

/-- `getMarketMultiplier` (`trading-intelligence/index.ts`, lines 125-133). -/
def getMarketMultiplier (marketCondition : String) : ℚ :=
  if marketCondition = "TRENDING" then 1.2
  else if marketCondition = "RANGE" then 0.8
  else if marketCondition = "HIGH_VOLATILITY" then 0.6
  else if marketCondition = "NO_TRADE" then 0
  else 1.0

/-- `getRiskMultiplier` (`trading-intelligence/index.ts`, lines 136-159).
`lossPercent` uses rational division; with `max_daily_loss = 0` Lean yields
`0` (no drawdown reduction) where JS yields `Infinity`/`NaN` — either way the
result stays within `[0, 1]`. -/
def getRiskMultiplier (state : TradingState) (rules : TradingRules) : ℚ :=
  if rules.consecutive_loss_limit ≤ state.consecutive_losses then 0
  else
    let m1 : ℚ :=
      if 2 ≤ state.consecutive_losses then 1.0 * 0.7
      else if 1 ≤ state.consecutive_losses then 1.0 * 0.85
      else 1.0
    let lossPercent := |state.daily_pnl| / rules.max_daily_loss
    if lossPercent > 0.8 then m1 * 0.3
    else if lossPercent > 0.5 then m1 * 0.6
    else if lossPercent > 0.3 then m1 * 0.8
    else m1

/-- Tradability chain of `calculateFinalScore`
(`trading-intelligence/index.ts`, lines 174-199), returning
`(isTradable, rejectionReason)`.  The `state.stop_reason || 'Auto-mode
disabled'` fallback treats the empty string as falsy, as JS does. -/
def tradability (finalScore : ℚ) (marketCondition : String)
    (timeMultiplier : ℚ) (state : TradingState) (rules : TradingRules) :
    Bool × Option String :=
  if marketCondition = "NO_TRADE" then
    (false, some "Market conditions not suitable for trading")
  else if state.auto_mode_active = false then
    (false, some (match state.stop_reason with
      | some s => if s = "" then "Auto-mode disabled" else s
      | none => "Auto-mode disabled"))
  else if rules.max_daily_trades ≤ state.trades_today then
    (false, some ("Daily trade limit reached (" ++
      toString rules.max_daily_trades ++ ")"))
  else if state.daily_pnl ≤ -rules.max_daily_loss then
    (false, some ("Daily loss limit reached (₹" ++
      toString rules.max_daily_loss ++ ")"))
  else if rules.consecutive_loss_limit ≤ state.consecutive_losses then
    (false, some ("Consecutive loss limit reached (" ++
      toString rules.consecutive_loss_limit ++ ")"))
  else if finalScore < rules.min_score_threshold then
    (false, some ("Score below threshold (" ++ toString finalScore ++ " < " ++
      toString rules.min_score_threshold ++ ")"))
  else if timeMultiplier = 0 then
    (false, some "Market is closed")
  else (true, none)

/-- `calculateFinalScore` (`trading-intelligence/index.ts`, lines 162-202). -/
def calculateFinalScore (rawScore : ℚ) (marketCondition : String)
    (istHour : ℚ) (state : TradingState) (rules : TradingRules) : SignalScore :=
  let marketMultiplier := getMarketMultiplier marketCondition
  let timeMultiplier := getTimeMultiplier istHour
  let riskMultiplier := getRiskMultiplier state rules
  let finalScore : ℚ :=
    (jsRound (rawScore * marketMultiplier * timeMultiplier * riskMultiplier) : ℚ)
  let t := tradability finalScore marketCondition timeMultiplier state rules
  { rawScore := rawScore, finalScore := finalScore,
    isTradable := t.1, rejectionReason := t.2 }

/-- The fallback rule set of `trading-intelligence/index.ts`, lines 237-245
(also the seed row of the migration). -/
def defaultRules : TradingRules :=
  { market_multiplier := 1.0, risk_multiplier := 1.0, time_multiplier := 1.0,
    min_score_threshold := 60, max_daily_trades := 10,
    max_daily_loss := 5000, consecutive_loss_limit := 3 }

/-! ## indicators/index.ts -/

/-- `OHLCVData` (`indicators/index.ts`, lines 11-18). -/
structure OHLCVData where
  timestamp : String
  open_ : ℚ
  high : ℚ
  low : ℚ
  close : ℚ
  volume : ℚ

/-- Placeholder candle for raw index reads (`sorted[i]`); every access in the
source is guarded so that the index is in range, hence the default is never
observed. -/
def defaultCandle : OHLCVData := ⟨"", 0, 0, 0, 0, 0⟩

/-- `IndicatorResult` (`indicators/index.ts`, lines 20-30). -/
structure IndicatorResult where
  vwap : Option ℚ
  rsi : Option ℚ
  macd : Option ℚ
  macdSignal : Option ℚ
  macdHistogram : Option ℚ
  atr : Option ℚ
  relativeVolume : Option ℚ
  trendStrength : Option ℚ
  patternDetected : Option String

/-- `calculateVWAP` (`indicators/index.ts`, lines 33-47). -/
def calculateVWAP (data : List OHLCVData) : Option ℚ :=
  if data.length = 0 then none
  else
    let cumulativeTPV :=
      (data.map (fun c => ((c.high + c.low + c.close) / 3) * c.volume)).sum
    let cumulativeVolume := (data.map (fun c => c.volume)).sum
    if cumulativeVolume = 0 then none
    else some (round2 (cumulativeTPV / cumulativeVolume))

/-- Seed gain sum of the RSI loop (`indicators/index.ts`, lines 60-67):
`Σ_{i=1..period} max(close[i] - close[i-1], 0)` over the chronological list. -/
def rsiSeedGains (sorted : List OHLCVData) (period : ℕ) : ℚ :=
  ((List.range period).map (fun i =>
    let change := (sorted.getD (i + 1) defaultCandle).close -
      (sorted.getD i defaultCandle).close
    if 0 < change then change else 0)).sum

/-- Seed loss sum of the RSI loop (`indicators/index.ts`, lines 60-67):
the `else` branch accumulates `Math.abs(change)` (zero changes contribute 0). -/
def rsiSeedLosses (sorted : List OHLCVData) (period : ℕ) : ℚ :=
  ((List.range period).map (fun i =>
    let change := (sorted.getD (i + 1) defaultCandle).close -
      (sorted.getD i defaultCandle).close
    if 0 < change then 0 else |change|)).sum

/-- Wilder-smoothing loop of `calculateRSI` (`indicators/index.ts`,
lines 73-80): iterates `i = period+1 .. sorted.length - 1`. -/
def rsiSmooth (sorted : List OHLCVData) (period : ℕ) (init : ℚ × ℚ) : ℚ × ℚ :=
  (List.range' (period + 1) (sorted.length - (period + 1))).foldl
    (fun acc i =>
      let change := (sorted.getD i defaultCandle).close -
        (sorted.getD (i - 1) defaultCandle).close
      let currentGain := if change > 0 then change else 0
      let currentLoss := if change < 0 then |change| else 0
      ((acc.1 * (period - 1 : ℚ) + currentGain) / period,
       (acc.2 * (period - 1 : ℚ) + currentLoss) / period))
    init

/-- `calculateRSI` (`indicators/index.ts`, lines 50-88), period 14 at the
single call site. -/
def calculateRSI (data : List OHLCVData) (period : ℕ := 14) : Option ℚ :=
  if data.length < period + 1 then none
  else
    let sortedData := data.reverse
    let seed : ℚ × ℚ :=
      (rsiSeedGains sortedData period / period,
       rsiSeedLosses sortedData period / period)
    let smoothed := rsiSmooth sortedData period seed
    let avgGain := smoothed.1
    let avgLoss := smoothed.2
    if avgLoss = 0 then some 100
    else some (round2 (100 - 100 / (1 + avgGain / avgLoss)))

/-- `calculateEMA` (`indicators/index.ts`, lines 91-109).  The output list is
built by appending; we accumulate it in reverse (newest value at the head,
`acc.headD 0` plays the source's `ema[ema.length - 1]`) and reverse at the
end.  The accumulator starts non-empty, so the default is never observed. -/
def calculateEMA (prices : List ℚ) (period : ℕ) : List ℚ :=
  let multiplier : ℚ := 2 / ((period : ℚ) + 1)
  let first : ℚ := (prices.take period).sum / (min period prices.length : ℕ)
  ((prices.drop period).foldl
    (fun acc p => ((p - acc.headD 0) * multiplier + acc.headD 0) :: acc)
    [first]).reverse

/-- MACD line (`indicators/index.ts`, lines 121-129): for every index `i` of
`ema26` with `i ≥ startIdx = len(ema26) - len(ema12)` push
`ema12[i - startIdx] - ema26[i]`.  (For the call sites `startIdx = -14` so all
indices qualify and every read is in range.) -/
def macdLineOf (ema12 ema26 : List ℚ) : List ℚ :=
  let startIdx : ℤ := (ema26.length : ℤ) - (ema12.length : ℤ)
  (List.range ema26.length).filterMap (fun (i : ℕ) =>
    if startIdx ≤ (i : ℤ) then
      some (ema12.getD ((i : ℤ) - startIdx).toNat 0 - ema26.getD i 0)
    else none)

/-- `calculateMACD` (`indicators/index.ts`, lines 112-145). -/
def calculateMACD (data : List OHLCVData) :
    Option ℚ × Option ℚ × Option ℚ :=
  if data.length < 26 then (none, none, none)
  else
    let closes := (data.reverse).map (fun d => d.close)
    let ema12 := calculateEMA closes 12
    let ema26 := calculateEMA closes 26
    let macdLine := macdLineOf ema12 ema26
    if macdLine.length < 9 then (none, none, none)
    else
      let signalLine := calculateEMA macdLine 9
      let latestMACD := macdLine.getLastD 0
      let latestSignal := signalLine.getLastD 0
      let histogram := latestMACD - latestSignal
      (some (round6 latestMACD), some (round6 latestSignal),
       some (round6 histogram))

/-- True-range list of `calculateATR` (`indicators/index.ts`, lines 154-166):
`max(H-L, |H-prevC|, |L-prevC|)` for `i = 1 .. sorted.length - 1`. -/
def trueRangesOf (sorted : List OHLCVData) : List ℚ :=
  (List.range (sorted.length - 1)).map (fun i =>
    let current := sorted.getD (i + 1) defaultCandle
    let previous := sorted.getD i defaultCandle
    max (current.high - current.low)
      (max |current.high - previous.close| |current.low - previous.close|))

/-- `calculateATR` (`indicators/index.ts`, lines 148-179), period 14 at the
single call site. -/
def calculateATR (data : List OHLCVData) (period : ℕ := 14) : Option ℚ :=
  if data.length < period + 1 then none
  else
    let sortedData := data.reverse
    let trueRanges := trueRangesOf sortedData
    if trueRanges.length < period then none
    else
      let seed := (trueRanges.take period).sum / period
      let atr := (trueRanges.drop period).foldl
        (fun atr tr => (atr * (period - 1 : ℚ) + tr) / period) seed
      some (round4 atr)

/-- `calculateRelativeVolume` (`indicators/index.ts`, lines 182-191).
`data.slice(1, period + 1)` is `(data.drop 1).take period`; the sum is always
divided by `period` even when the slice is shorter. -/
def calculateRelativeVolume (data : List OHLCVData) (period : ℕ := 20) :
    Option ℚ :=
  if data.length < period then none
  else
    let currentVolume := (data.headD defaultCandle).volume
    let avgVolume :=
      (((data.drop 1).take period).map (fun b => b.volume)).sum / period
    if avgVolume = 0 then none
    else some (round2 (currentVolume / avgVolume))

/-- `calculateTrendStrength` (`indicators/index.ts`, lines 194-222).
Divisions (`priceChange` denominator, which may be `0` for degenerate data)
follow the rational convention.  The bullish count iterates over
`data[len-10 .. len-1]`, i.e. the last ten entries of the *supplied*
(newest-first) list, exactly as the source loop does. -/
def calculateTrendStrength (data : List OHLCVData) : Option ℚ :=
  if data.length < 20 then none
  else
    let closes := (data.reverse).map (fun d => d.close)
    let sma20 := ((closes.drop (closes.length - 20)).sum) / 20
    let currentPrice := closes.getLastD 0
    let base := closes.getD (closes.length - 10) 0
    let priceChange := (currentPrice - base) / base
    let bullishCount : ℕ :=
      ((data.drop (data.length - 10)).filter (fun c => c.open_ < c.close)).length
    let trendDirection : ℚ := if sma20 < currentPrice then 1 else -1
    let momentum := |priceChange| * 100
    let consistency := ((bullishCount : ℚ) / 10) * 100
    let strength := min 100 |momentum * 2 + consistency * 0.5|
    some (round2 (strength * trendDirection))

/-- `detectCandlePattern` (`indicators/index.ts`, lines 225-289).  The DOJI
test `bodySize / range < 0.1` carries a `range ≠ 0` guard: in JS a zero range
makes the quotient `NaN` or `Infinity` and the comparison false. -/
def detectCandlePattern (data : List OHLCVData) : Option String :=
  match data with
  | current :: previous :: _ :: _ =>
    let bodySize := |current.close - current.open_|
    let upperWick := current.high - max current.open_ current.close
    let lowerWick := min current.open_ current.close - current.low
    let range := current.high - current.low
    if bodySize * 2 ≤ lowerWick ∧ upperWick ≤ bodySize * 0.5 ∧
        current.open_ < current.close then some "HAMMER"
    else if bodySize * 2 ≤ upperWick ∧ lowerWick ≤ bodySize * 0.5 ∧
        current.open_ < current.close then some "INVERTED_HAMMER"
    else if bodySize * 2 ≤ upperWick ∧ lowerWick ≤ bodySize * 0.5 ∧
        current.close < current.open_ then some "SHOOTING_STAR"
    else if previous.close < previous.open_ ∧ current.open_ < current.close ∧
        current.open_ < previous.close ∧ previous.open_ < current.close then
      some "BULLISH_ENGULFING"
    else if previous.open_ < previous.close ∧ current.close < current.open_ ∧
        previous.close < current.open_ ∧ current.close < previous.open_ then
      some "BEARISH_ENGULFING"
    else if range ≠ 0 ∧ bodySize / range < 0.1 then some "DOJI"
    else none
  | _ => none

/-- `computeAllIndicators` (`indicators/index.ts`, lines 292-306). -/
def computeAllIndicators (data : List OHLCVData) : IndicatorResult :=
  let macdResult := calculateMACD data
  { vwap := calculateVWAP data,
    rsi := calculateRSI data,
    macd := macdResult.1,
    macdSignal := macdResult.2.1,
    macdHistogram := macdResult.2.2,
    atr := calculateATR data,
    relativeVolume := calculateRelativeVolume data,
    trendStrength := calculateTrendStrength data,
    patternDetected := detectCandlePattern data }

/-! ## src/unnamed/part_003 (Sharekhan market-data engine) -/

/-- Result of the inline indicator engine of `part_003`. -/
structure SkIndicators where
  vwap : Option ℚ
  rsi : Option ℚ

/-- `computeIndicators` (`src/unnamed/part_003`, lines 102-136): inline VWAP
plus a seed-average-only RSI(14) for lists of at least 15 candles, rounded to
2 decimals, `100` when the average loss is not positive. -/
def computeIndicators (data : List OHLCVData) : SkIndicators :=
  let cumulativeTPV :=
    (data.map (fun c => ((c.high + c.low + c.close) / 3) * c.volume)).sum
  let cumulativeVolume := (data.map (fun c => c.volume)).sum
  let vwap : Option ℚ :=
    if 0 < cumulativeVolume then some (round2 (cumulativeTPV / cumulativeVolume))
    else none
  let rsi : Option ℚ :=
    if 15 ≤ data.length then
      let sorted := data.reverse
      let avgGain := rsiSeedGains sorted 14 / 14
      let avgLoss := rsiSeedLosses sorted 14 / 14
      some (if 0 < avgLoss then
        round2 (100 - 100 / (1 + avgGain / avgLoss))
      else 100)
    else none
  { vwap := vwap, rsi := rsi }

/-! ## market-conditions/index.ts -/

/-- Output of `getTimeOfDay` (`market-conditions/index.ts`, lines 24-41),
taken as an input by `classifyMarket`. -/
structure TimeInfo where
  period : String
  isOptimal : Bool

/-- An `indicator_cache` row as consumed by `classifyMarket`
(`market-conditions/index.ts`, lines 116-121). -/
structure MCSnapshot where
  trend_strength : Option ℚ
  atr : Option ℚ
  relative_volume : Option ℚ

/-- `MarketAnalysis` (`market-conditions/index.ts`, lines 13-21). -/
structure MarketAnalysis where
  condition : String
  indexDirection : String
  volatilityLevel : ℚ
  volumeBehavior : String
  timeOfDay : String
  confidence : ℚ
  reasoning : String
deriving DecidableEq

/-- `analyzeVolatility` (`market-conditions/index.ts`, lines 44-58).
`!atr` is JS truthiness (null or 0). -/
def analyzeVolatility (atr : Option ℚ) (avgPrice : ℚ) : ℚ × String :=
  if ¬truthyQ atr ∨ avgPrice = 0 then (0, "UNKNOWN")
  else
    let volatilityPercent := (atr.getD 0 / avgPrice) * 100
    if volatilityPercent > 3 then (volatilityPercent, "EXTREME")
    else if volatilityPercent > 2 then (volatilityPercent, "HIGH")
    else if volatilityPercent > 1 then (volatilityPercent, "NORMAL")
    else (volatilityPercent, "LOW")

/-- `analyzeVolume` (`market-conditions/index.ts`, lines 61-75), returning
`(behavior, isHealthy)`. -/
def analyzeVolume (relativeVolume : Option ℚ) : String × Bool :=
  if ¬truthyQ relativeVolume then ("UNKNOWN", false)
  else
    let rv := relativeVolume.getD 0
    if rv > 2 then ("SURGE", true)
    else if rv > 1.2 then ("ABOVE_AVERAGE", true)
    else if rv > 0.8 then ("NORMAL", true)
    else if rv > 0.5 then ("BELOW_AVERAGE", false)
    else ("DRY", false)

/-- `analyzeTrend` (`market-conditions/index.ts`, lines 78-92), returning
`(direction, isTrending)`. -/
def analyzeTrend (trendStrength : Option ℚ) : String × Bool :=
  if ¬truthyQ trendStrength then ("UNKNOWN", false)
  else
    let t := trendStrength.getD 0
    if t > 50 then ("STRONG_BULLISH", true)
    else if t > 20 then ("BULLISH", true)
    else if t < -50 then ("STRONG_BEARISH", true)
    else if t < -20 then ("BEARISH", true)
    else ("SIDEWAYS", false)

/-- One iteration of the aggregation loop of `classifyMarket`
(`market-conditions/index.ts`, lines 116-121).  Note `count++` runs for
*every* row, whether or not any field is non-null. -/
def aggregateStep (acc : ℚ × ℚ × ℚ × ℕ) (ind : MCSnapshot) : ℚ × ℚ × ℚ × ℕ :=
  ((match ind.trend_strength with
    | some t => acc.1 + t
    | none => acc.1),
   (match ind.atr with
    | some a => acc.2.1 + a
    | none => acc.2.1),
   (match ind.relative_volume with
    | some v => acc.2.2.1 + v
    | none => acc.2.2.1),
   acc.2.2.2 + 1)

/-- Aggregation loop of `classifyMarket` (`market-conditions/index.ts`,
lines 109-121), returning `(totalTrend, totalVolatility, totalVolume, count)`. -/
def aggregateTotals (indicators : List MCSnapshot) : ℚ × ℚ × ℚ × ℕ :=
  indicators.foldl aggregateStep (0, 0, 0, 0)

/-- `classifyMarket` (`market-conditions/index.ts`, lines 95-181). -/
def classifyMarket (indicators : List MCSnapshot) (timeInfo : TimeInfo) :
    MarketAnalysis :=
  if timeInfo.period = "MARKET_CLOSED" then
    { condition := "NO_TRADE", indexDirection := "CLOSED",
      volatilityLevel := 0, volumeBehavior := "NONE",
      timeOfDay := timeInfo.period, confidence := 100,
      reasoning := "Market is closed. No trading activity." }
  else
    let totals := aggregateTotals indicators
    let count := totals.2.2.2
    if count = 0 then
      { condition := "NO_TRADE", indexDirection := "UNKNOWN",
        volatilityLevel := 0, volumeBehavior := "UNKNOWN",
        timeOfDay := timeInfo.period, confidence := 50,
        reasoning := "Insufficient data to classify market conditions." }
    else
      let avgTrend := totals.1 / count
      let avgVolatilityRaw := totals.2.1 / count
      let avgRelativeVolume := totals.2.2.1 / count
      let trendAnalysis := analyzeTrend (some avgTrend)
      let volatilityAnalysis := analyzeVolatility (some avgVolatilityRaw) 1000
      let volumeAnalysis := analyzeVolume (some avgRelativeVolume)
      let step : String × ℚ × List String :=
        if volatilityAnalysis.2 = "EXTREME" then
          ("HIGH_VOLATILITY", 85, ["Extreme volatility detected"])
        else if timeInfo.isOptimal = false ∧ volumeAnalysis.1 = "DRY" then
          ("NO_TRADE", 75,
           ["Poor trading conditions: low volume during non-optimal hours"])
        else if trendAnalysis.2 = true ∧ volumeAnalysis.2 = true then
          ("TRENDING", min 90 (60 + |avgTrend| / 2),
           ["Clear " ++ trendAnalysis.1 ++ " trend with healthy volume"])
        else if trendAnalysis.2 = false then
          ("RANGE", 70, ["No clear trend direction, range-bound market"])
        else ("RANGE", 50, [])
      let withCaution : ℚ × List String :=
        if timeInfo.period = "OPENING_VOLATILITY" ∨
            timeInfo.period = "CLOSING_HOUR" then
          (step.2.1 * 0.8,
           step.2.2 ++ ["Caution: " ++ timeInfo.period ++ " period"])
        else (step.2.1, step.2.2)
      { condition := step.1, indexDirection := trendAnalysis.1,
        volatilityLevel := volatilityAnalysis.1,
        volumeBehavior := volumeAnalysis.1,
        timeOfDay := timeInfo.period,
        confidence := (jsRound withCaution.1 : ℚ),
        reasoning := String.intercalate ". " withCaution.2 }

/-! ## exit-monitor/index.ts -/

/-- `ExitType` (`exit-monitor/index.ts`, line 11). -/
inductive ExitType where
  | TARGET_HIT
  | STOPLOSS_HIT
  | EARLY_EXIT
  | MANUAL
  | AUTO_STOP
deriving DecidableEq

/-- `ExitDecision` (`exit-monitor/index.ts`, lines 13-18). -/
structure ExitDecision where
  shouldExit : Bool
  exitType : Option ExitType
  reason : String
  confidence : ℚ
deriving DecidableEq

/-- `OpenTrade` (`exit-monitor/index.ts`, lines 20-28).  `opened_at` is only
used to derive `minutesOpen`, which we pass explicitly. -/
structure OpenTrade where
  id : String
  symbol : String
  trade_type : String
  entry_price : ℚ
  quantity : ℚ
  signal_id : Option String

/-- An `indicator_cache` row as consumed by the exit checks
(`exit-monitor/index.ts`, lines 43-85). -/
structure ExitSnapshot where
  rsi : Option ℚ
  macd_histogram : Option ℚ
  trend_strength : Option ℚ
  relative_volume : Option ℚ
  vwap : Option ℚ

/-- `checkPriceStall` (`exit-monitor/index.ts`, lines 31-40).  The division
by `entryPrice` follows the rational convention (entry prices are nonzero for
real positions). -/
def checkPriceStall (currentPrice entryPrice minutesOpen : ℚ) : Bool :=
  let priceChange := |(currentPrice - entryPrice) / entryPrice| * 100
  if minutesOpen > 30 ∧ priceChange < 0.3 then true
  else if minutesOpen > 45 ∧ priceChange < 0.5 then true
  else false

/-- `checkMomentumWeakening` (`exit-monitor/index.ts`, lines 43-63).  Each
`if (x && ...)` guard keeps the JS truthiness test `x ≠ 0`. -/
def checkMomentumWeakening (indicators : Option ExitSnapshot)
    (tradeType : String) : Bool :=
  match indicators with
  | none => false
  | some ind =>
    if tradeType = "BUY" then
      if truthyQ ind.rsi ∧ ind.rsi.getD 0 > 75 then true
      else if truthyQ ind.macd_histogram ∧
          ind.macd_histogram.getD 0 < -0.001 then true
      else if truthyQ ind.trend_strength ∧
          ind.trend_strength.getD 0 < -30 then true
      else false
    else
      if truthyQ ind.rsi ∧ ind.rsi.getD 0 < 25 then true
      else if truthyQ ind.macd_histogram ∧
          ind.macd_histogram.getD 0 > 0.001 then true
      else if truthyQ ind.trend_strength ∧
          ind.trend_strength.getD 0 > 30 then true
      else false

/-- `checkVolumeDryUp` (`exit-monitor/index.ts`, lines 66-69). -/
def checkVolumeDryUp (indicators : Option ExitSnapshot) : Bool :=
  match indicators with
  | none => false
  | some ind =>
    if truthyQ ind.relative_volume then
      decide (ind.relative_volume.getD 0 < 0.5)
    else false

/-- `checkVwapLost` (`exit-monitor/index.ts`, lines 72-85). -/
def checkVwapLost (indicators : Option ExitSnapshot) (currentPrice : ℚ)
    (tradeType : String) : Bool :=
  match indicators with
  | none => false
  | some ind =>
    if truthyQ ind.vwap then
      let vwap := ind.vwap.getD 0
      let tolerance := vwap * 0.002
      if tradeType = "BUY" then decide (currentPrice < vwap - tolerance)
      else decide (currentPrice > vwap + tolerance)
    else false

/-- `evaluateExit` (`exit-monitor/index.ts`, lines 88-181).  `minutesOpen`
models `(Date.now() - openedAt.getTime()) / 60000`; the `if (targetPrice)` /
`if (stoplossPrice)` guards are JS truthiness tests. -/
def evaluateExit (trade : OpenTrade) (currentPrice : ℚ)
    (indicators : Option ExitSnapshot) (marketCondition : String)
    (minutesOpen : ℚ) (targetPrice stoplossPrice : Option ℚ) : ExitDecision :=
  let entryPrice := trade.entry_price
  let tradeType := trade.trade_type
  if truthyQ targetPrice ∧ tradeType = "BUY" ∧
      targetPrice.getD 0 ≤ currentPrice then
    { shouldExit := true, exitType := some .TARGET_HIT,
      reason := "Target price reached", confidence := 100 }
  else if truthyQ targetPrice ∧ tradeType = "SELL" ∧
      currentPrice ≤ targetPrice.getD 0 then
    { shouldExit := true, exitType := some .TARGET_HIT,
      reason := "Target price reached", confidence := 100 }
  else if truthyQ stoplossPrice ∧ tradeType = "BUY" ∧
      currentPrice ≤ stoplossPrice.getD 0 then
    { shouldExit := true, exitType := some .STOPLOSS_HIT,
      reason := "Stoploss triggered", confidence := 100 }
  else if truthyQ stoplossPrice ∧ tradeType = "SELL" ∧
      stoplossPrice.getD 0 ≤ currentPrice then
    { shouldExit := true, exitType := some .STOPLOSS_HIT,
      reason := "Stoploss triggered", confidence := 100 }
  else if marketCondition = "NO_TRADE" ∨
      marketCondition = "HIGH_VOLATILITY" then
    { shouldExit := true, exitType := some .EARLY_EXIT,
      reason := "Market condition changed to " ++ marketCondition,
      confidence := 85 }
  else
    let stall := checkPriceStall currentPrice entryPrice minutesOpen
    let momentum := checkMomentumWeakening indicators tradeType
    let volume := checkVolumeDryUp indicators
    let vwapLost := checkVwapLost indicators currentPrice tradeType
    let timeDecay := decide (minutesOpen > 60)
    let exitScore : ℚ :=
      (if stall then 30 else 0) + (if momentum then 35 else 0) +
      (if volume then 25 else 0) + (if vwapLost then 30 else 0) +
      (if timeDecay then 15 else 0)
    let reasons : List String :=
      (if stall then ["Price stalled"] else []) ++
      (if momentum then ["Momentum weakening"] else []) ++
      (if volume then ["Volume drying up"] else []) ++
      (if vwapLost then ["Lost VWAP support/resistance"] else []) ++
      (if timeDecay then ["Trade open too long"] else [])
    if 50 ≤ exitScore then
      { shouldExit := true, exitType := some .EARLY_EXIT,
        reason := String.intercalate ", " reasons,
        confidence := min 95 (exitScore + 20) }
    else
      { shouldExit := false, exitType := none,
        reason := "Conditions still favorable",
        confidence := 100 - exitScore }

/-! ## learning-engine/index.ts -/

/-- A `learning_adjustments` row as consumed by the `apply_adjustments`
action (`learning-engine/index.ts`, lines 294-319).  `last_updated` and `now`
are epoch milliseconds. -/
structure LearningAdjustment where
  condition_type : String
  adjusted_value : ℚ
  last_updated : ℚ

/-- The 24-hour recency filter of the `apply_adjustments` action:
`.gte('last_updated', new Date(Date.now() - 24 * 60 * 60 * 1000))`
(`learning-engine/index.ts`, lines 295-298). -/
def recentAdjustments (adjustments : List LearningAdjustment) (now : ℚ) :
    List LearningAdjustment :=
  adjustments.filter (fun adj => now - 24 * 60 * 60 * 1000 ≤ adj.last_updated)

/-- Damping loop of the `apply_adjustments` action
(`learning-engine/index.ts`, lines 307-318): for each recent adjustment of
type `min_score_threshold`, move 20% of the distance from the *original*
`rules.min_score_threshold` toward the proposal and round.  (The source
always reads `rules.min_score_threshold`, not the updated copy.) -/
def applyAdjustments (rules : TradingRules)
    (adjustments : List LearningAdjustment) (now : ℚ) : TradingRules :=
  (recentAdjustments adjustments now).foldl
    (fun newRules adj =>
      if adj.condition_type = "min_score_threshold" then
        let delta := (adj.adjusted_value - rules.min_score_threshold) * 0.2
        { newRules with
          min_score_threshold :=
            (jsRound (rules.min_score_threshold + delta) : ℚ) }
      else newRules)
    rules

/-! ## Shared lemmas -/

theorem jsRound_nonneg {q : ℚ} (h : 0 ≤ q) : 0 ≤ jsRound q :=
  Int.floor_nonneg.mpr (by linarith)

theorem le_jsRound {n : ℤ} {q : ℚ} (h : (n : ℚ) ≤ q) : n ≤ jsRound q :=
  Int.le_floor.mpr (by linarith)

theorem jsRound_le {q : ℚ} {n : ℤ} (h : q ≤ (n : ℚ)) : jsRound q ≤ n := by
  have : jsRound q < n + 1 := Int.floor_lt.mpr (by push_cast; linarith)
  omega

theorem jsRound_intCast (n : ℤ) : jsRound (n : ℚ) = n := by
  unfold jsRound
  rw [Int.floor_int_add]
  norm_num

theorem trendContribution_nonneg (ind : IndicatorSnapshot) :
    0 ≤ trendContribution ind := by
  unfold trendContribution
  cases ind.trend_strength with
  | none => norm_num
  | some ts => exact le_min (by norm_num) (by positivity)

theorem rsiContribution_nonneg (ind : IndicatorSnapshot) :
    0 ≤ rsiContribution ind := by
  unfold rsiContribution
  cases ind.rsi with
  | none => norm_num
  | some r =>
    dsimp only
    split_ifs <;> norm_num

theorem vwapContribution_nonneg (ind : IndicatorSnapshot) :
    0 ≤ vwapContribution ind := by
  unfold vwapContribution
  rcases ind.vwap with _ | v <;> rcases ind.raw_data_close with _ | c <;>
    simp only <;> try norm_num
  split_ifs <;> norm_num

theorem volumeContribution_nonneg (ind : IndicatorSnapshot) :
    0 ≤ volumeContribution ind := by
  unfold volumeContribution
  cases ind.relative_volume with
  | none => norm_num
  | some rv =>
    dsimp only
    split_ifs <;> norm_num

theorem patternContribution_nonneg (ind : IndicatorSnapshot) :
    0 ≤ patternContribution ind := by
  unfold patternContribution
  cases ind.pattern_detected with
  | none => norm_num
  | some p =>
    dsimp only
    split_ifs <;> norm_num

theorem macdContribution_nonneg (ind : IndicatorSnapshot) :
    0 ≤ macdContribution ind := by
  unfold macdContribution
  cases ind.macd_histogram with
  | none => norm_num
  | some h =>
    dsimp only
    split_ifs <;> norm_num

theorem getMarketMultiplier_bounds (marketCondition : String) :
    0 ≤ getMarketMultiplier marketCondition ∧
      getMarketMultiplier marketCondition ≤ 1.2 := by
  unfold getMarketMultiplier
  split_ifs <;> norm_num

theorem getTimeMultiplier_bounds (istHour : ℚ) :
    0 ≤ getTimeMultiplier istHour ∧ getTimeMultiplier istHour ≤ 1 := by
  unfold getTimeMultiplier
  split_ifs <;> norm_num

theorem getRiskMultiplier_bounds (state : TradingState)
    (rules : TradingRules) :
    0 ≤ getRiskMultiplier state rules ∧ getRiskMultiplier state rules ≤ 1 := by
  unfold getRiskMultiplier
  dsimp only
  split_ifs <;> norm_num

/-! ## Claim theorems -/

/-- C9: for every indicator snapshot (including one with all-null metrics),
`calculateRawScore` returns an integer in `[50, 100]`: the base score 50 is
never reduced (every contribution is non-negative) and the result is capped
at 100. -/
theorem calculateRawScore_mem_Icc (ind : IndicatorSnapshot) :
    50 ≤ calculateRawScore ind ∧ calculateRawScore ind ≤ 100 := by
  unfold calculateRawScore
  constructor
  · refine le_min (by norm_num) (le_jsRound ?_)
    have h1 := trendContribution_nonneg ind
    have h2 := rsiContribution_nonneg ind
    have h3 := vwapContribution_nonneg ind
    have h4 := volumeContribution_nonneg ind
    have h5 := patternContribution_nonneg ind
    have h6 := macdContribution_nonneg ind
    have hc : ((50 : ℤ) : ℚ) = 50 := by norm_num
    rw [hc]
    linarith
  · exact min_le_left _ _

/-- C4: whatever the raw score, trading state, rules and wall-clock hour,
regime `NO_TRADE` forces `isTradable = false` with rejection reason
"Market conditions not suitable for trading". -/
theorem calculateFinalScore_no_trade (rawScore istHour : ℚ)
    (state : TradingState) (rules : TradingRules) :
    (calculateFinalScore rawScore "NO_TRADE" istHour state rules).isTradable =
        false ∧
      (calculateFinalScore rawScore "NO_TRADE" istHour state
          rules).rejectionReason =
        some "Market conditions not suitable for trading" := by
  unfold calculateFinalScore tradability
  simp

/-- A fresh trading state: no trades, no PnL, no losses, auto-mode on. -/
def freshState : TradingState :=
  { trades_today := 0, daily_pnl := 0, consecutive_losses := 0,
    auto_mode_active := true, stop_reason := none }

/-- C2 (amended): for every raw score in `[0, 100]`, regime, wall-clock hour,
trading state and rules, the final score
`round(rawScore × marketMultiplier × timeMultiplier × riskMultiplier)` lies
in `[0, 120]` (no clamp is applied after the multipliers; 1.2 is the largest
market multiplier and the time and risk multipliers never exceed 1). -/
theorem calculateFinalScore_mem_Icc (rawScore : ℚ) (marketCondition : String)
    (istHour : ℚ) (state : TradingState) (rules : TradingRules)
    (h0 : 0 ≤ rawScore) (h100 : rawScore ≤ 100) :
    0 ≤ (calculateFinalScore rawScore marketCondition istHour
        state rules).finalScore ∧
      (calculateFinalScore rawScore marketCondition istHour
        state rules).finalScore ≤ 120 := by
  obtain ⟨hm0, hm1⟩ := getMarketMultiplier_bounds marketCondition
  obtain ⟨ht0, ht1⟩ := getTimeMultiplier_bounds istHour
  obtain ⟨hr0, hr1⟩ := getRiskMultiplier_bounds state rules
  unfold calculateFinalScore
  dsimp only
  set mm := getMarketMultiplier marketCondition
  set tm := getTimeMultiplier istHour
  set rm := getRiskMultiplier state rules
  have hprod0 : 0 ≤ rawScore * mm * tm * rm := by positivity
  have hprod : rawScore * mm * tm * rm ≤ 120 := by
    have h1 : rawScore * mm ≤ 100 * 1.2 :=
      mul_le_mul h100 hm1 hm0 (by norm_num)
    have h2 : rawScore * mm * tm ≤ 100 * 1.2 * 1 :=
      mul_le_mul h1 ht1 ht0 (by norm_num)
    have h3 : rawScore * mm * tm * rm ≤ 100 * 1.2 * 1 * 1 :=
      mul_le_mul h2 hr1 hr0 (by norm_num)
    linarith
  constructor
  · exact_mod_cast jsRound_nonneg hprod0
  · have : jsRound (rawScore * mm * tm * rm) ≤ (120 : ℤ) :=
      jsRound_le (by push_cast; linarith)
    exact_mod_cast this

/-- C2 witness: the amended bound instantiated at raw score 80, regime RANGE,
11:00 IST, a fresh state and the default rules. -/
theorem calculateFinalScore_mem_Icc_witness :
    (0 : ℚ) ≤ 80 ∧ (80 : ℚ) ≤ 100 ∧
      (0 ≤ (calculateFinalScore 80 "RANGE" 11 freshState
          defaultRules).finalScore ∧
        (calculateFinalScore 80 "RANGE" 11 freshState
          defaultRules).finalScore ≤ 120) :=
  ⟨by norm_num, by norm_num,
    calculateFinalScore_mem_Icc 80 "RANGE" 11 freshState defaultRules
      (by norm_num) (by norm_num)⟩

/-- C2 counterexample: with raw score 100, regime TRENDING (multiplier 1.2),
10:30 IST (time multiplier 1.0), a fresh state and the default rules
(risk multiplier 1.0), the final score is 120 — `calculateFinalScore` applies
no clamp, so the claimed range `[0, 100]` is violated. -/
theorem calculateFinalScore_exceeds_100 :
    (calculateFinalScore 100 "TRENDING" 10.5 freshState
        defaultRules).finalScore = 120 ∧
      ¬((calculateFinalScore 100 "TRENDING" 10.5 freshState
        defaultRules).finalScore ≤ 100) := by
  have h : (calculateFinalScore 100 "TRENDING" 10.5 freshState
      defaultRules).finalScore = 120 := by
    unfold calculateFinalScore getMarketMultiplier getTimeMultiplier
      getRiskMultiplier
    norm_num [freshState, defaultRules, jsRound]
  exact ⟨h, by rw [h]; norm_num⟩

/-- A trading state sitting at three consecutive losses, otherwise clean. -/
def threeLossState : TradingState :=
  { trades_today := 0, daily_pnl := 0, consecutive_losses := 3,
    auto_mode_active := true, stop_reason := none }

/-- C1 (amended): with `consecutiveLosses = 3` and `consecutiveLossLimit = 3`,
for any raw score, regime and wall-clock hour, `getRiskMultiplier` returns 0
and `calculateFinalScore` returns `isTradable = false`; the rejection reason
is "Consecutive loss limit reached (3)" provided no earlier gate of the
chain fires first (regime is not `NO_TRADE`, auto mode is active, the daily
trade count is below its limit and the daily PnL is above the loss limit). -/
theorem consecutive_loss_hard_stop (rawScore istHour : ℚ)
    (marketCondition : String) (state : TradingState) (rules : TradingRules)
    (hc : state.consecutive_losses = 3)
    (hl : rules.consecutive_loss_limit = 3) :
    getRiskMultiplier state rules = 0 ∧
      (calculateFinalScore rawScore marketCondition istHour
        state rules).isTradable = false ∧
      (marketCondition ≠ "NO_TRADE" → state.auto_mode_active = true →
        state.trades_today < rules.max_daily_trades →
        -rules.max_daily_loss < state.daily_pnl →
        (calculateFinalScore rawScore marketCondition istHour
            state rules).rejectionReason =
          some "Consecutive loss limit reached (3)") := by
  have hle : rules.consecutive_loss_limit ≤ state.consecutive_losses := by
    rw [hc, hl]
  refine ⟨?_, ?_, ?_⟩
  · unfold getRiskMultiplier
    rw [if_pos hle]
  · unfold calculateFinalScore tradability
    dsimp only
    split_ifs <;> simp_all
  · intro hmc hauto htr hpnl
    unfold calculateFinalScore tradability
    dsimp only
    rw [if_neg hmc, if_neg (by rw [hauto]; simp), if_neg (not_le.mpr htr),
      if_neg (not_le.mpr hpnl), if_pos hle, hl]
    decide

/-- C1 counterexample: the claim promises the reason
"Consecutive loss limit reached (3)" for *any* regime, but with regime
`NO_TRADE` the first gate of the chain fires instead, so the rejection
reason is "Market conditions not suitable for trading". -/
theorem consecutive_loss_reason_preempted :
    threeLossState.consecutive_losses = 3 ∧
      defaultRules.consecutive_loss_limit = 3 ∧
      (calculateFinalScore 80 "NO_TRADE" 10.5 threeLossState
          defaultRules).rejectionReason =
        some "Market conditions not suitable for trading" ∧
      (calculateFinalScore 80 "NO_TRADE" 10.5 threeLossState
          defaultRules).rejectionReason ≠
        some "Consecutive loss limit reached (3)" := by
  have h : (calculateFinalScore 80 "NO_TRADE" 10.5 threeLossState
      defaultRules).rejectionReason =
      some "Market conditions not suitable for trading" := by
    unfold calculateFinalScore tradability
    simp
  refine ⟨rfl, rfl, h, ?_⟩
  rw [h]
  decide

/-- C1 witness: the amended statement instantiated at regime RANGE, raw score
80, 10:30 IST, three consecutive losses and the default rules. -/
theorem consecutive_loss_hard_stop_witness :
    getRiskMultiplier threeLossState defaultRules = 0 ∧
      (calculateFinalScore 80 "RANGE" 10.5 threeLossState
        defaultRules).isTradable = false ∧
      (calculateFinalScore 80 "RANGE" 10.5 threeLossState
          defaultRules).rejectionReason =
        some "Consecutive loss limit reached (3)" := by
  have h := consecutive_loss_hard_stop 80 10.5 "RANGE" threeLossState
    defaultRules rfl rfl
  exact ⟨h.1, h.2.1,
    h.2.2 (by decide) rfl (by norm_num [threeLossState, defaultRules])
      (by norm_num [threeLossState, defaultRules])⟩

/-- C5: for an open position with a (truthy) target price, a hit target —
BUY with price at or above target, or SELL with price at or below target —
makes `evaluateExit` return `TARGET_HIT` with confidence 100, whatever the
indicators, market condition, open time and stoploss are: the target check
precedes the regime-flip check and the composite early-exit scoring. -/
theorem evaluateExit_target_priority (trade : OpenTrade) (currentPrice : ℚ)
    (indicators : Option ExitSnapshot) (marketCondition : String)
    (minutesOpen : ℚ) (stoplossPrice : Option ℚ) (t : ℚ) (ht : t ≠ 0)
    (hhit : (trade.trade_type = "BUY" ∧ t ≤ currentPrice) ∨
      (trade.trade_type = "SELL" ∧ currentPrice ≤ t)) :
    evaluateExit trade currentPrice indicators marketCondition minutesOpen
        (some t) stoplossPrice =
      { shouldExit := true, exitType := some .TARGET_HIT,
        reason := "Target price reached", confidence := 100 } := by
  unfold evaluateExit
  rcases hhit with ⟨hb, hp⟩ | ⟨hs, hp⟩
  · rw [if_pos ⟨ht, hb, by simpa using hp⟩]
  · rw [if_neg, if_pos ⟨ht, hs, by simpa using hp⟩]
    rintro ⟨-, hbuy, -⟩
    rw [hs] at hbuy
    exact absurd hbuy (by decide)

/-- A concrete BUY position for the C5 witness (entry 100). -/
def sampleTrade : OpenTrade :=
  { id := "T1", symbol := "RELIANCE", trade_type := "BUY",
    entry_price := 100, quantity := 1, signal_id := none }

/-- A snapshot that would also flag overbought momentum (RSI 80) and a
reversed trend, so the composite early-exit path would fire if reached. -/
def overboughtSnapshot : ExitSnapshot :=
  { rsi := some 80, macd_histogram := some (-0.01),
    trend_strength := some (-40), relative_volume := some 0.4,
    vwap := some 111 }

/-- C5 witness: BUY, entry 100, target 110, stop 95, current price 110, with
overbought indicators and 90 minutes open — still `TARGET_HIT`/100. -/
theorem evaluateExit_target_priority_witness :
    evaluateExit sampleTrade 110 (some overboughtSnapshot) "RANGE" 90
        (some 110) (some 95) =
      { shouldExit := true, exitType := some .TARGET_HIT,
        reason := "Target price reached", confidence := 100 } :=
  evaluateExit_target_priority sampleTrade 110 (some overboughtSnapshot)
    "RANGE" 90 (some 95) 110 (by norm_num)
    (Or.inl ⟨rfl, by norm_num⟩)

/-- C8: for every non-empty candle list, each indicator independently
degrades to `none` below its minimum window — 15 candles for RSI and ATR, 26
for the MACD triple, 20 for relative volume and trend strength — and
`computeAllIndicators` (a total function) still returns a snapshot. -/
theorem computeAllIndicators_null_below_window (data : List OHLCVData)
    (_hne : data ≠ []) :
    (data.length < 15 → (computeAllIndicators data).rsi = none) ∧
      (data.length < 26 → (computeAllIndicators data).macd = none ∧
        (computeAllIndicators data).macdSignal = none ∧
        (computeAllIndicators data).macdHistogram = none) ∧
      (data.length < 15 → (computeAllIndicators data).atr = none) ∧
      (data.length < 20 → (computeAllIndicators data).relativeVolume = none) ∧
      (data.length < 20 → (computeAllIndicators data).trendStrength = none) := by
  unfold computeAllIndicators
  dsimp only
  refine ⟨?_, ?_, ?_, ?_, ?_⟩
  · intro h
    unfold calculateRSI
    rw [if_pos (by omega)]
  · intro h
    unfold calculateMACD
    rw [if_pos h]
    exact ⟨rfl, rfl, rfl⟩
  · intro h
    unfold calculateATR
    rw [if_pos (by omega)]
  · intro h
    unfold calculateRelativeVolume
    rw [if_pos h]
  · intro h
    unfold calculateTrendStrength
    rw [if_pos h]

/-- A single candle for the C8 witness. -/
def sampleCandle : OHLCVData :=
  { timestamp := "2026-01-02T10:00:00Z", open_ := 100, high := 101,
    low := 99, close := 100.5, volume := 1000 }

/-- C8 witness: the degradation facts instantiated at a one-candle list. -/
theorem computeAllIndicators_null_below_window_witness :
    (computeAllIndicators [sampleCandle]).rsi = none ∧
      (computeAllIndicators [sampleCandle]).macd = none ∧
      (computeAllIndicators [sampleCandle]).atr = none ∧
      (computeAllIndicators [sampleCandle]).relativeVolume = none ∧
      (computeAllIndicators [sampleCandle]).trendStrength = none := by
  have h := computeAllIndicators_null_below_window [sampleCandle] (by simp)
  exact ⟨h.1 (by norm_num), (h.2.1 (by norm_num)).1, h.2.2.1 (by norm_num),
    h.2.2.2.1 (by norm_num), h.2.2.2.2 (by norm_num)⟩

/-- A flat candle with volume 100, for the C7 failing input. -/
def flatCandle : OHLCVData :=
  { timestamp := "", open_ := 100, high := 101, low := 99, close := 100,
    volume := 100 }

/-- C7 (code bug exhibit): on a list of exactly 20 candles — which has only
19 chronologically older candles after the newest — `calculateRelativeVolume`
does not return `none`: its guard is `data.length < 20` instead of `< 21`,
so it sums the 19 available older volumes, still divides by 20, and returns
`100 / 95` rounded, i.e. `1.05`. -/
theorem calculateRelativeVolume_twenty_candles :
    (List.replicate 20 flatCandle).length = 20 ∧
      calculateRelativeVolume (List.replicate 20 flatCandle) 20 =
        some (1.05 : ℚ) := by
  constructor
  · rfl
  · unfold calculateRelativeVolume
    norm_num [flatCandle, round2, jsRound, List.replicate]

theorem aggregateStep_count (acc : ℚ × ℚ × ℚ × ℕ) (ind : MCSnapshot) :
    (aggregateStep acc ind).2.2.2 = acc.2.2.2 + 1 := rfl

theorem foldl_aggregateStep_count (l : List MCSnapshot) :
    ∀ acc : ℚ × ℚ × ℚ × ℕ,
      (List.foldl aggregateStep acc l).2.2.2 = acc.2.2.2 + l.length := by
  induction l with
  | nil => intro acc; simp
  | cons x xs ih =>
    intro acc
    rw [List.foldl_cons, ih, aggregateStep_count]
    simp
    omega

theorem aggregateTotals_count (indicators : List MCSnapshot) :
    (aggregateTotals indicators).2.2.2 = indicators.length := by
  unfold aggregateTotals
  rw [foldl_aggregateStep_count]
  simp

theorem foldl_aggregateStep_all_null (l : List MCSnapshot)
    (h : ∀ ind ∈ l, ind.trend_strength = none ∧ ind.atr = none ∧
      ind.relative_volume = none) :
    ∀ acc : ℚ × ℚ × ℚ × ℕ,
      List.foldl aggregateStep acc l =
        (acc.1, acc.2.1, acc.2.2.1, acc.2.2.2 + l.length) := by
  induction l with
  | nil => intro acc; simp
  | cons x xs ih =>
    intro acc
    obtain ⟨h1, h2, h3⟩ := h x (List.mem_cons_self x xs)
    have hstep : aggregateStep acc x = (acc.1, acc.2.1, acc.2.2.1, acc.2.2.2 + 1) := by
      unfold aggregateStep
      rw [h1, h2, h3]
    rw [List.foldl_cons, hstep,
      ih (fun ind hmem => h ind (List.mem_cons_of_mem x hmem))]
    simp
    omega

theorem aggregateTotals_all_null (l : List MCSnapshot)
    (h : ∀ ind ∈ l, ind.trend_strength = none ∧ ind.atr = none ∧
      ind.relative_volume = none) :
    aggregateTotals l = (0, 0, 0, l.length) := by
  unfold aggregateTotals
  rw [foldl_aggregateStep_all_null l h]
  simp

theorem jsRound_seventy : (jsRound (70 : ℚ) : ℚ) = 70 := by
  norm_num [jsRound]

/-- C6 (amended): when the market is open, `classifyMarket` counts *every*
snapshot (its `count` is the list length, not the number of snapshots with
non-null data), so the `NO_TRADE`/confidence-50 "insufficient data" result
occurs exactly for an *empty* snapshot list; a non-empty list all of whose
indicator fields are null is classified through the normal rules and, during
an optimal non-opening/non-closing period, yields RANGE with confidence 70. -/
theorem classifyMarket_insufficient_only_when_empty (timeInfo : TimeInfo)
    (indicators : List MCSnapshot)
    (hopen : timeInfo.period ≠ "MARKET_CLOSED") :
    (aggregateTotals indicators).2.2.2 = indicators.length ∧
      (indicators = [] → classifyMarket indicators timeInfo =
        { condition := "NO_TRADE", indexDirection := "UNKNOWN",
          volatilityLevel := 0, volumeBehavior := "UNKNOWN",
          timeOfDay := timeInfo.period, confidence := 50,
          reasoning := "Insufficient data to classify market conditions." }) ∧
      (indicators ≠ [] →
        (∀ ind ∈ indicators, ind.trend_strength = none ∧ ind.atr = none ∧
          ind.relative_volume = none) →
        timeInfo.period ≠ "OPENING_VOLATILITY" →
        timeInfo.period ≠ "CLOSING_HOUR" →
        timeInfo.isOptimal = true →
        (classifyMarket indicators timeInfo).condition = "RANGE" ∧
          (classifyMarket indicators timeInfo).confidence = 70) := by
  refine ⟨aggregateTotals_count indicators, ?_, ?_⟩
  · intro he
    subst he
    unfold classifyMarket
    rw [if_neg hopen]
    rfl
  · intro hne hnull hop hcl hopt
    have htotals := aggregateTotals_all_null indicators hnull
    have hlen0 : indicators.length ≠ 0 := fun h => hne (List.length_eq_zero.mp h)
    unfold classifyMarket
    rw [if_neg hopen, htotals]
    simp only [zero_div]
    rw [if_neg hlen0]
    simp only [analyzeTrend, analyzeVolatility, analyzeVolume, truthyQ,
      zero_div, hopt]
    norm_num
    simp only [if_neg (show ("UNKNOWN" : String) ≠ "EXTREME" by decide)]
    rw [if_neg (fun h => h.elim hop hcl)]
    exact ⟨trivial, jsRound_seventy⟩

/-- A snapshot with every indicator field null. -/
def allNullSnapshot : MCSnapshot :=
  { trend_strength := none, atr := none, relative_volume := none }

/-- The optimal morning session bucket of `getTimeOfDay`. -/
def morningTime : TimeInfo := { period := "MORNING_SESSION", isOptimal := true }

/-- C6 counterexample: a one-element snapshot list with all-null fields has
"zero snapshots with data", yet `classifyMarket` (whose `count++` is
unconditional) returns RANGE with confidence 70 during the morning session —
not `NO_TRADE` with confidence 50 as claimed. -/
theorem classifyMarket_all_null_not_insufficient :
    (classifyMarket [allNullSnapshot] morningTime).condition = "RANGE" ∧
      (classifyMarket [allNullSnapshot] morningTime).confidence = 70 ∧
      ¬((classifyMarket [allNullSnapshot] morningTime).condition = "NO_TRADE" ∧
        (classifyMarket [allNullSnapshot] morningTime).confidence = 50) := by
  have htotals : aggregateTotals [allNullSnapshot] = (0, 0, 0, 1) := rfl
  have hres : (classifyMarket [allNullSnapshot] morningTime).condition =
      "RANGE" ∧
      (classifyMarket [allNullSnapshot] morningTime).confidence = 70 := by
    unfold classifyMarket
    rw [if_neg (show morningTime.period ≠ "MARKET_CLOSED" by decide), htotals]
    norm_num [analyzeTrend, analyzeVolatility, analyzeVolume, truthyQ,
      morningTime]
    simp only [if_neg (show ("UNKNOWN" : String) ≠ "EXTREME" by decide)]
    exact ⟨trivial, jsRound_seventy⟩
  refine ⟨hres.1, hres.2, ?_⟩
  rintro ⟨hc, -⟩
  rw [hres.1] at hc
  exact absurd hc (by decide)

/-- C6 witness: the amended statement instantiated at the empty list and at
a singleton all-null list during the morning session. -/
theorem classifyMarket_insufficient_only_when_empty_witness :
    (classifyMarket ([] : List MCSnapshot) morningTime =
      { condition := "NO_TRADE", indexDirection := "UNKNOWN",
        volatilityLevel := 0, volumeBehavior := "UNKNOWN",
        timeOfDay := morningTime.period, confidence := 50,
        reasoning := "Insufficient data to classify market conditions." }) ∧
      ((classifyMarket [allNullSnapshot] morningTime).condition = "RANGE" ∧
        (classifyMarket [allNullSnapshot] morningTime).confidence = 70) := by
  have h1 := classifyMarket_insufficient_only_when_empty morningTime []
    (by decide)
  have h2 := classifyMarket_insufficient_only_when_empty morningTime
    [allNullSnapshot] (by decide)
  refine ⟨h1.2.1 rfl, h2.2.2 (by simp) ?_ (by decide) (by decide) rfl⟩
  intro ind h
  rw [List.mem_singleton] at h
  subst h
  exact ⟨rfl, rfl, rfl⟩

theorem jsRound_le_add_half (q : ℚ) : (jsRound q : ℚ) ≤ q + 1/2 :=
  Int.floor_le _

theorem sub_half_lt_jsRound (q : ℚ) : q - 1/2 < (jsRound q : ℚ) := by
  have h := Int.sub_one_lt_floor (q + 1/2)
  unfold jsRound
  linarith

theorem jsRound_lt {q : ℚ} {n : ℤ} (h : q + 1/2 < (n : ℚ)) : jsRound q < n :=
  Int.floor_lt.mpr h

theorem le_jsRound_of_le_add_half {n : ℤ} {q : ℚ} (h : (n : ℚ) ≤ q + 1/2) :
    n ≤ jsRound q :=
  Int.le_floor.mpr h

theorem jsRound_intCast_add (m : ℤ) (y : ℚ) :
    jsRound ((m : ℚ) + y) = m + jsRound y := by
  unfold jsRound
  rw [add_assoc, Int.floor_int_add]

/-- The damped 20% step applied from an integral current value stays inside
the closed interval spanned by current and proposed value. -/
theorem jsRound_partial_step (c p : ℚ) (hc : c.den = 1) :
    min c p ≤ (jsRound (c + (p - c) * 0.2) : ℚ) ∧
      (jsRound (c + (p - c) * 0.2) : ℚ) ≤ max c p := by
  obtain ⟨m, rfl⟩ : ∃ m : ℤ, (m : ℚ) = c := ⟨c.num, Rat.den_eq_one_iff c |>.mp hc⟩
  set x := p - (m : ℚ) with hx
  have hp : p = (m : ℚ) + x := by rw [hx]; ring
  rw [jsRound_intCast_add m (x * 0.2)]
  push_cast
  rcases le_or_lt 0 x with hpos | hneg
  · have hmin : min (m : ℚ) p = (m : ℚ) := min_eq_left (by linarith)
    have hmax : max (m : ℚ) p = p := max_eq_right (by linarith)
    rw [hmin, hmax, hp]
    constructor
    · have : (0 : ℤ) ≤ jsRound (x * 0.2) := jsRound_nonneg (by positivity)
      have : (0 : ℚ) ≤ (jsRound (x * 0.2) : ℚ) := by exact_mod_cast this
      linarith
    · have hle : (jsRound (x * 0.2) : ℚ) ≤ x := by
        rcases lt_or_le x (5/2) with hsmall | hbig
        · have h0 : jsRound (x * 0.2) < 1 := jsRound_lt (by push_cast; linarith)
          have h0' : jsRound (x * 0.2) ≤ 0 := by omega
          have : (jsRound (x * 0.2) : ℚ) ≤ 0 := by exact_mod_cast h0'
          linarith
        · have := jsRound_le_add_half (x * 0.2)
          linarith
      linarith
  · have hmin : min (m : ℚ) p = p := min_eq_right (by linarith)
    have hmax : max (m : ℚ) p = (m : ℚ) := max_eq_left (by linarith)
    rw [hmin, hmax, hp]
    constructor
    · have hge : x ≤ (jsRound (x * 0.2) : ℚ) := by
        rcases lt_or_le (-(5/2) : ℚ) x with hsmall | hbig
        · have h0 : (0 : ℤ) ≤ jsRound (x * 0.2) :=
            le_jsRound_of_le_add_half (by push_cast; linarith)
          have : (0 : ℚ) ≤ (jsRound (x * 0.2) : ℚ) := by exact_mod_cast h0
          linarith
        · have := sub_half_lt_jsRound (x * 0.2)
          linarith
      linarith
    · have h0 : jsRound (x * 0.2) < 1 := jsRound_lt (by push_cast; linarith)
      have h0' : jsRound (x * 0.2) ≤ 0 := by omega
      have : (jsRound (x * 0.2) : ℚ) ≤ 0 := by exact_mod_cast h0'
      linarith

/-- C3 (amended): `applyAdjustments` only acts on adjustments passing the
24-hour recency filter; each applied `min_score_threshold` adjustment sets
the new value to `round(current + (proposed - current) * 0.2)`; and whenever
the current value is an *integer* (as `Math.round` always produces), the
result lies between the original and the proposed value inclusive.  (For a
fractional stored value the rounded step can leave that interval — see the
counterexample.) -/
theorem applyAdjustments_damped_step (rules : TradingRules)
    (adj : LearningAdjustment) (now : ℚ)
    (hrecent : now - 24 * 60 * 60 * 1000 ≤ adj.last_updated)
    (htype : adj.condition_type = "min_score_threshold") :
    (applyAdjustments rules [adj] now).min_score_threshold =
      (jsRound (rules.min_score_threshold +
        (adj.adjusted_value - rules.min_score_threshold) * 0.2) : ℚ) ∧
      (rules.min_score_threshold.den = 1 →
        min rules.min_score_threshold adj.adjusted_value ≤
          (applyAdjustments rules [adj] now).min_score_threshold ∧
        (applyAdjustments rules [adj] now).min_score_threshold ≤
          max rules.min_score_threshold adj.adjusted_value) ∧
      (∀ adjustments : List LearningAdjustment,
        applyAdjustments rules adjustments now =
          applyAdjustments rules (recentAdjustments adjustments now) now) := by
  have happ : (applyAdjustments rules [adj] now).min_score_threshold =
      (jsRound (rules.min_score_threshold +
        (adj.adjusted_value - rules.min_score_threshold) * 0.2) : ℚ) := by
    unfold applyAdjustments recentAdjustments
    rw [List.filter_cons, if_pos (decide_eq_true hrecent), List.filter_nil,
      List.foldl_cons, if_pos htype, List.foldl_nil]
  refine ⟨happ, ?_, ?_⟩
  · intro hden
    rw [happ]
    exact jsRound_partial_step rules.min_score_threshold adj.adjusted_value hden
  · intro adjustments
    unfold applyAdjustments recentAdjustments
    rw [List.filter_filter]
    simp

/-- Rules whose live threshold has been set to the fractional value 60.4. -/
def fracRules : TradingRules :=
  { defaultRules with min_score_threshold := 60.4 }

/-- A fresh `min_score_threshold` proposal of 60.5. -/
def halfStepAdj : LearningAdjustment :=
  { condition_type := "min_score_threshold", adjusted_value := 60.5,
    last_updated := 0 }

/-- C3 counterexample: from current value 60.4 toward proposal 60.5 the
damped step computes `round(60.4 + 0.1 * 0.2) = round(60.42) = 60`, which
lies strictly below both the original and the proposed value — the claimed
"never on the far side of the original value" fails for fractional currents. -/
theorem applyAdjustments_leaves_interval :
    fracRules.min_score_threshold = 60.4 ∧
      halfStepAdj.adjusted_value = 60.5 ∧
      (applyAdjustments fracRules [halfStepAdj] 0).min_score_threshold = 60 ∧
      ¬(min (60.4 : ℚ) 60.5 ≤
        (applyAdjustments fracRules [halfStepAdj] 0).min_score_threshold) := by
  have happ : (applyAdjustments fracRules [halfStepAdj] 0).min_score_threshold
      = (60 : ℚ) := by
    unfold applyAdjustments recentAdjustments
    rw [List.filter_cons]
    norm_num [halfStepAdj, fracRules, defaultRules, jsRound]
  exact ⟨rfl, rfl, happ, by rw [happ]; norm_num⟩

/-- A fresh `min_score_threshold` proposal of 70. -/
def sampleAdj : LearningAdjustment :=
  { condition_type := "min_score_threshold", adjusted_value := 70,
    last_updated := 0 }

/-- C3 witness: the amended statement instantiated at the default rules
(threshold 60, an integer) and a fresh proposal of 70: round(60 + 2) = 62,
inside [60, 70]. -/
theorem applyAdjustments_damped_step_witness :
    (applyAdjustments defaultRules [sampleAdj] 0).min_score_threshold = 62 ∧
      min defaultRules.min_score_threshold sampleAdj.adjusted_value ≤
        (applyAdjustments defaultRules [sampleAdj] 0).min_score_threshold ∧
      (applyAdjustments defaultRules [sampleAdj] 0).min_score_threshold ≤
        max defaultRules.min_score_threshold sampleAdj.adjusted_value := by
  have h := applyAdjustments_damped_step defaultRules sampleAdj 0
    (by norm_num [sampleAdj]) rfl
  have h62 : (jsRound (defaultRules.min_score_threshold +
      (sampleAdj.adjusted_value - defaultRules.min_score_threshold) * 0.2) : ℚ)
      = 62 := by
    norm_num [defaultRules, sampleAdj, jsRound]
  obtain ⟨hlo, hhi⟩ := h.2.1 (by norm_num [defaultRules])
  exact ⟨h.1.trans h62, hlo, hhi⟩

theorem rsiSeedLosses_nonneg (sorted : List OHLCVData) (period : ℕ) :
    0 ≤ rsiSeedLosses sorted period := by
  unfold rsiSeedLosses
  apply List.sum_nonneg
  intro x hx
  simp only [List.mem_map] at hx
  obtain ⟨i, -, rfl⟩ := hx
  split_ifs <;> positivity

/-- C10: on a list of exactly 15 candles the inline RSI of the Sharekhan
engine (`computeIndicators`, seed averages only, `100` when the average loss
is not positive) coincides with the indicator engine's `calculateRSI`: with
15 candles the Wilder-smoothing loop of the latter runs zero iterations, and
`avgLoss = 0` and `¬(avgLoss > 0)` agree because the average loss is a sum
of absolute values. -/
theorem computeIndicators_rsi_matches (data : List OHLCVData)
    (h15 : data.length = 15) :
    (computeIndicators data).rsi = calculateRSI data 14 := by
  have hrev : data.reverse.length = 15 := by simpa using h15
  have hsm : rsiSmooth data.reverse 14
      (rsiSeedGains data.reverse 14 / ((14 : ℕ) : ℚ),
       rsiSeedLosses data.reverse 14 / ((14 : ℕ) : ℚ)) =
      (rsiSeedGains data.reverse 14 / ((14 : ℕ) : ℚ),
       rsiSeedLosses data.reverse 14 / ((14 : ℕ) : ℚ)) := by
    unfold rsiSmooth
    rw [hrev]
    rfl
  unfold computeIndicators calculateRSI
  rw [if_pos (by omega : 15 ≤ data.length),
    if_neg (by omega : ¬(data.length < 14 + 1))]
  simp only [hsm]
  have hL : 0 ≤ rsiSeedLosses data.reverse 14 / ((14 : ℕ) : ℚ) := by
    have := rsiSeedLosses_nonneg data.reverse 14
    positivity
  simp only [Nat.cast_ofNat]
  by_cases hz : rsiSeedLosses data.reverse 14 / (14 : ℚ) = 0
  · rw [if_pos hz, if_neg (by rw [hz]; exact lt_irrefl 0)]
  · have hpos : 0 < rsiSeedLosses data.reverse 14 / (14 : ℚ) := by
      rcases lt_or_eq_of_le hL with h | h
      · simpa using h
      · exact absurd h.symm (by simpa using hz)
    rw [if_neg hz, if_pos hpos]

/-- A 15-candle list for the C10 witness. -/
def rsiList15 : List OHLCVData := List.replicate 15 sampleCandle

/-- C10 witness: the equivalence instantiated at a concrete 15-candle list. -/
theorem computeIndicators_rsi_matches_witness :
    rsiList15.length = 15 ∧
      (computeIndicators rsiList15).rsi = calculateRSI rsiList15 14 :=
  ⟨by decide, computeIndicators_rsi_matches rsiList15 (by decide)⟩
